import Mathlib

/-!
Shallow embedding of the approval-workflow and webhook subsystems of the
node-typeorm-starter repository, together with proofs about them.

Sources embedded:
  - src/controllers/workflows.ts : workflow creation validation (zod schema),
    approval-task creation, approve / reject / discard handlers.
  - src/controllers/webhooks.ts : webhook selection for a trigger,
    per-delivery execution recording, schedule scan.
  - src/entities/ApprovalTask.ts (variant with Discarded + actionHistory),
    src/entities/Schedule.ts, WebhookExecution entity.

Persistence is modelled by explicit values: a handler receives the result of
its database lookup as an `Option` argument and returns `Except` — an
`Except.error` result corresponds to an HTTP error response with nothing
saved, so the stored task is unchanged exactly when the result is an error.
JavaScript truthiness on the nullable integer column `nextReviewLevel`
(`if (!task.nextReviewLevel)`) is modelled by `optNatFalsy`.
-/

namespace NodeStarter

/-- Task lifecycle states, from the ApprovalTask entity (variant including
Discarded, which the discard handler assigns). -/
inductive ApprovalStatus
  | Pending
  | InProgress
  | Completed
  | Rejected
  | Discarded
deriving DecidableEq, Repr

/-- One approval level of a workflow (WorkflowApprovals entity / zod
approvalSchema fields). -/
structure WorkflowApprovals where
  name : String
  level : Nat
  allowedRoles : List String
  approvalCountsRequired : Nat
deriving DecidableEq, Repr

/-- Workflow entity (fields consumed by the handlers). -/
structure Workflow where
  id : String
  name : String
  resourceType : String
  ownerType : String
  ownerId : String
  enabled : Bool
  approvals : List WorkflowApprovals
deriving DecidableEq, Repr

/-- One element of an ApprovalTask's actionHistory JSON column, as built by
the approve / reject / discard handlers. -/
structure HistoryEntry where
  reviewerId : String
  reviewerRoles : List String
  actionType : String
  comment : Option String
  currentLevel : Nat
  nextLevel : Option Nat
  currentStatus : ApprovalStatus
  nextStatus : ApprovalStatus
  timestamp : String
deriving DecidableEq, Repr

/-- ApprovalTask entity, with its workflow relation loaded (the handlers
always fetch relations workflow + workflow.approvals). -/
structure ApprovalTask where
  id : String
  workflowId : String
  resourceId : String
  status : ApprovalStatus
  nextReviewLevel : Option Nat
  actionHistory : List HistoryEntry
  workflow : Workflow
deriving DecidableEq, Repr

/-- Authenticated caller context: req.clientType / req.clientId set by the
auth middleware from the x-account headers. -/
structure Client where
  clientType : String
  clientId : String
deriving DecidableEq, Repr

/-- The distinct error responses produced by the task handlers.  Each
constructor corresponds to one res.status(...).json(...) site in
src/controllers/workflows.ts. -/
inductive ApiError
  | validationFailed
  | taskNotFound
  | ownershipForbidden
  | terminalState
  | noPendingLevel
  | levelConfigNotFound
  | roleMismatch (level : Nat) (allowedRoles : List String)
  | workflowNotFoundOrDisabled
deriving DecidableEq, Repr

/-- HTTP status of each error response, as set at the corresponding
res.status(...) call site. -/
def ApiError.httpStatus : ApiError → Nat
  | .validationFailed => 400
  | .taskNotFound => 404
  | .ownershipForbidden => 403
  | .terminalState => 400
  | .noPendingLevel => 400
  | .levelConfigNotFound => 400
  | .roleMismatch _ _ => 403
  | .workflowNotFoundOrDisabled => 400

/-- JavaScript falsiness of the nullable integer column nextReviewLevel:
`!x` is true when x is null or 0. -/
def optNatFalsy : Option Nat → Bool
  | none => true
  | some n => n == 0

/-- Ownership check from enforceClientOwnership: throws CustomAuthError(403)
unless the resource owner pair equals the caller pair. -/
def ownershipOk (c : Client) (ownerType ownerId : String) : Bool :=
  ownerType == c.clientType && ownerId == c.clientId

/-- Maximum level number of a workflow's approvals:
`Math.max(...task.workflow.approvals.map(a => a.level))` (levels are
non-negative integers, so the fold from 0 agrees with Math.max on the
non-empty lists reachable here). -/
def workflowMaxLevel (w : Workflow) : Nat :=
  (w.approvals.map WorkflowApprovals.level).foldl Nat.max 0

/-- Success branch of the approve handler (workflows.ts lines 420-454):
complete at the maximal level, otherwise advance one level; append one
history entry. -/
def approveSuccess (task : ApprovalTask) (reviewerId : String)
    (reviewerRoles : List String) (comment : Option String)
    (timestamp : String) : ApprovalTask :=
  let currentLevel := task.nextReviewLevel.getD 0
  let currentStatus := task.status
  let maxLevel := workflowMaxLevel task.workflow
  let nextPair : ApprovalStatus × Option Nat :=
    if maxLevel ≤ currentLevel then (ApprovalStatus.Completed, none)
    else (ApprovalStatus.InProgress, some (currentLevel + 1))
  let entry : HistoryEntry :=
    { reviewerId := reviewerId
      reviewerRoles := reviewerRoles
      actionType := "approve"
      comment := comment
      currentLevel := currentLevel
      nextLevel := nextPair.2
      currentStatus := currentStatus
      nextStatus := nextPair.1
      timestamp := timestamp }
  { task with
      status := nextPair.1
      nextReviewLevel := nextPair.2
      actionHistory := task.actionHistory ++ [entry] }

/-- Approve handler approveApprovalTaskHandler (workflows.ts lines 375-479),
after zod validation of the body.  The Option argument is the result of the
findOne lookup for the task id. -/
def approveTask (c : Client) (taskLookup : Option ApprovalTask)
    (reviewerId : String) (reviewerRoles : List String)
    (comment : Option String) (timestamp : String) :
    Except ApiError ApprovalTask :=
  match taskLookup with
  | none => .error .taskNotFound
  | some task =>
    if !(ownershipOk c task.workflow.ownerType task.workflow.ownerId) then
      .error .ownershipForbidden
    else if task.status == ApprovalStatus.Completed
        || task.status == ApprovalStatus.Rejected then
      .error .terminalState
    else if optNatFalsy task.nextReviewLevel then
      .error .noPendingLevel
    else
      match task.workflow.approvals.find?
          (fun a => a.level == task.nextReviewLevel.getD 0) with
      | none => .error .levelConfigNotFound
      | some currentApproval =>
        if !(reviewerRoles.any fun role =>
            currentApproval.allowedRoles.contains role) then
          .error (.roleMismatch (task.nextReviewLevel.getD 0)
            currentApproval.allowedRoles)
        else
          .ok (approveSuccess task reviewerId reviewerRoles comment timestamp)

/-- Success branch of the reject handler (workflows.ts lines 527-560):
level 1 rejects fully, otherwise send back one level; append one history
entry (comment mandatory). -/
def rejectSuccess (task : ApprovalTask) (reviewerId : String)
    (reviewerRoles : List String) (comment : String)
    (timestamp : String) : ApprovalTask :=
  let currentLevel := task.nextReviewLevel.getD 0
  let currentStatus := task.status
  let nextPair : ApprovalStatus × Option Nat :=
    if currentLevel == 1 then (ApprovalStatus.Rejected, none)
    else (ApprovalStatus.InProgress, some (currentLevel - 1))
  let entry : HistoryEntry :=
    { reviewerId := reviewerId
      reviewerRoles := reviewerRoles
      actionType := "reject"
      comment := some comment
      currentLevel := currentLevel
      nextLevel := nextPair.2
      currentStatus := currentStatus
      nextStatus := nextPair.1
      timestamp := timestamp }
  { task with
      status := nextPair.1
      nextReviewLevel := nextPair.2
      actionHistory := task.actionHistory ++ [entry] }

/-- Reject handler rejectApprovalTaskHandler (workflows.ts lines 482-584),
after zod validation; identical guard chain to approve. -/
def rejectTask (c : Client) (taskLookup : Option ApprovalTask)
    (reviewerId : String) (reviewerRoles : List String)
    (comment : String) (timestamp : String) :
    Except ApiError ApprovalTask :=
  match taskLookup with
  | none => .error .taskNotFound
  | some task =>
    if !(ownershipOk c task.workflow.ownerType task.workflow.ownerId) then
      .error .ownershipForbidden
    else if task.status == ApprovalStatus.Completed
        || task.status == ApprovalStatus.Rejected then
      .error .terminalState
    else if optNatFalsy task.nextReviewLevel then
      .error .noPendingLevel
    else
      match task.workflow.approvals.find?
          (fun a => a.level == task.nextReviewLevel.getD 0) with
      | none => .error .levelConfigNotFound
      | some currentApproval =>
        if !(reviewerRoles.any fun role =>
            currentApproval.allowedRoles.contains role) then
          .error (.roleMismatch (task.nextReviewLevel.getD 0)
            currentApproval.allowedRoles)
        else
          .ok (rejectSuccess task reviewerId reviewerRoles comment timestamp)

/-- Mutation applied to an eligible task by the bulk discard handler
(workflows.ts lines 639-660): status Discarded, nextReviewLevel null, one
history entry (currentLevel uses the JS `|| 0` default). -/
def discardSuccess (task : ApprovalTask) (reviewerId : String)
    (reviewerRoles : List String) (comment : Option String)
    (timestamp : String) : ApprovalTask :=
  let currentLevel := task.nextReviewLevel.getD 0
  let currentStatus := task.status
  let entry : HistoryEntry :=
    { reviewerId := reviewerId
      reviewerRoles := reviewerRoles
      actionType := "discard"
      comment := comment
      currentLevel := currentLevel
      nextLevel := none
      currentStatus := currentStatus
      nextStatus := ApprovalStatus.Discarded
      timestamp := timestamp }
  { task with
      status := ApprovalStatus.Discarded
      nextReviewLevel := none
      actionHistory := task.actionHistory ++ [entry] }

/-- Per-task body of the bulk discard loop in discardApprovalTasksHandler
(workflows.ts lines 608-666).  An error result is collected into the errors
list for that task id; the task row is then not part of the batch update. -/
def discardOne (c : Client) (taskLookup : Option ApprovalTask)
    (reviewerId : String) (reviewerRoles : List String)
    (comment : Option String) (timestamp : String) :
    Except ApiError ApprovalTask :=
  match taskLookup with
  | none => .error .taskNotFound
  | some task =>
    if !(ownershipOk c task.workflow.ownerType task.workflow.ownerId) then
      .error .ownershipForbidden
    else if [ApprovalStatus.Completed, ApprovalStatus.Rejected,
        ApprovalStatus.Discarded].contains task.status then
      .error .terminalState
    else
      let roleGate : Except ApiError Unit :=
        if optNatFalsy task.nextReviewLevel then .ok ()
        else
          match task.workflow.approvals.find?
              (fun a => a.level == task.nextReviewLevel.getD 0) with
          | none => .ok ()
          | some currentApproval =>
            if reviewerRoles.any (fun role =>
                currentApproval.allowedRoles.contains role) then .ok ()
            else .error (.roleMismatch (task.nextReviewLevel.getD 0)
              currentApproval.allowedRoles)
      match roleGate with
      | .error e => .error e
      | .ok _ =>
        .ok (discardSuccess task reviewerId reviewerRoles comment timestamp)

/-- Lookup used by createApprovalTaskHandler (workflows.ts lines 244-249):
findOneBy({ id, enabled: true, ownerType, ownerId }). -/
def findWorkflowForCreate (workflowStore : List Workflow) (c : Client)
    (workflowId : String) : Option Workflow :=
  workflowStore.find? fun w =>
    w.id == workflowId && w.enabled
      && w.ownerType == c.clientType && w.ownerId == c.clientId

/-- Task creation createApprovalTaskHandler (workflows.ts lines 236-287):
a fresh task has status Pending, nextReviewLevel 1 and empty history. -/
def createApprovalTask (workflowStore : List Workflow) (c : Client)
    (taskId workflowId resourceId : String) :
    Except ApiError ApprovalTask :=
  match findWorkflowForCreate workflowStore c workflowId with
  | none => .error .workflowNotFoundOrDisabled
  | some workflow =>
    .ok { id := taskId
          workflowId := workflowId
          resourceId := resourceId
          status := ApprovalStatus.Pending
          nextReviewLevel := some 1
          actionHistory := []
          workflow := workflow }

/-- Read endpoint getApprovalTaskHandler (workflows.ts lines 289-319):
404 when the findOne lookup misses, 403 CustomAuthError when the linked
workflow is owned by a different client. -/
def getApprovalTask (c : Client) (taskLookup : Option ApprovalTask) :
    Except ApiError ApprovalTask :=
  match taskLookup with
  | none => .error .taskNotFound
  | some task =>
    if !(ownershipOk c task.workflow.ownerType task.workflow.ownerId) then
      .error .ownershipForbidden
    else
      .ok task

/-- One element of the approvals array of a create-workflow request
(zod approvalSchema, workflows.ts lines 12-17). -/
structure ApprovalInput where
  name : String
  level : Nat
  allowedRoles : List String
  approvalCountsRequired : Nat
deriving DecidableEq, Repr

/-- Per-item zod approvalSchema: name non-empty, level an integer at least 1
(z.number().int().min(1), so the accepted levels are exactly the positive
naturals), allowedRoles an array of non-empty strings,
approvalCountsRequired at least 1. -/
def approvalItemValid (a : ApprovalInput) : Bool :=
  1 ≤ a.name.length && 1 ≤ a.level
    && a.allowedRoles.all (fun r => 1 ≤ r.length)
    && 1 ≤ a.approvalCountsRequired

/-- Indexed `every` over the sorted level list:
`levels.every((level, index) => level === index + 1)` with the running index
made explicit. -/
def everyConsecutiveFrom : Nat → List Nat → Bool
  | _, [] => true
  | i, l :: rest => l == i + 1 && everyConsecutiveFrom (i + 1) rest

/-- Duplicate check `[...new Set(levels)].length === levels.length` (only
the length of the deduplicated list is consulted). -/
def noDuplicateLevels (levels : List Nat) : Bool :=
  levels.dedup.length == levels.length

/-- The refine callback of createWorkflowSchema (workflows.ts lines 24-29):
sort the level numbers ascending, reject duplicates, require the sorted
levels to be 1, 2, ... in order. -/
def levelsRefine (approvals : List ApprovalInput) : Bool :=
  let levels := List.insertionSort (· ≤ ·) (approvals.map ApprovalInput.level)
  noDuplicateLevels levels && everyConsecutiveFrom 0 levels

/-- Validation of the approvals field: non-empty array of valid items whose
levels pass the refine (z.array(approvalSchema).min(1).refine(...)). -/
def approvalsValid (approvals : List ApprovalInput) : Bool :=
  1 ≤ approvals.length && approvals.all approvalItemValid
    && levelsRefine approvals

/-- Body of a create-workflow request (enabled already defaulted by zod). -/
structure CreateWorkflowInput where
  name : String
  resourceType : String
  enabled : Bool
  approvals : List ApprovalInput
deriving DecidableEq, Repr

/-- Full createWorkflowSchema check (workflows.ts lines 19-32). -/
def createWorkflowValid (input : CreateWorkflowInput) : Bool :=
  1 ≤ input.name.length && 1 ≤ input.resourceType.length
    && approvalsValid input.approvals

/-- Workflow creation createWorkflowHandler (workflows.ts lines 129-161):
zod failure is a 400 validation error and nothing is persisted; otherwise
the workflow is saved with the caller as owner. -/
def createWorkflow (c : Client) (workflowId : String)
    (input : CreateWorkflowInput) : Except ApiError Workflow :=
  if createWorkflowValid input then
    .ok { id := workflowId
          name := input.name
          resourceType := input.resourceType
          ownerType := c.clientType
          ownerId := c.clientId
          enabled := input.enabled
          approvals := input.approvals.map fun a =>
            { name := a.name
              level := a.level
              allowedRoles := a.allowedRoles
              approvalCountsRequired := a.approvalCountsRequired } }
  else
    .error .validationFailed

/-- RegisteredWebhook entity (fields consumed by trigger and scan). -/
structure RegisteredWebhook where
  id : String
  resourceType : String
  resourceId : String
  ownerType : String
  ownerId : String
  webhookType : String
  webhookUrl : String
  headers : Option (List (String × String))
  connectionTimeout : Nat
  requestTimeout : Nat
  enabled : Bool
deriving DecidableEq, Repr

/-- The `where` object built by doTriggerWebhooks (webhooks.ts lines
285-288): resource match plus enabled, and an id restriction only when
targetWebhookIds is supplied and non-empty. -/
structure TriggerWhere where
  resourceType : String
  resourceId : String
  idRestriction : Option (List String)
deriving DecidableEq, Repr

/-- Construction of the `where` object: `if (targetWebhookIds &&
targetWebhookIds.length > 0) where.id = targetWebhookIds`. -/
def buildTriggerWhere (resourceType resourceId : String)
    (targetWebhookIds : Option (List String)) : TriggerWhere :=
  { resourceType := resourceType
    resourceId := resourceId
    idRestriction :=
      match targetWebhookIds with
      | some ids => if 0 < ids.length then some ids else none
      | none => none }

/-- Predicate semantics of the find({ where }) call: resource fields and
enabled must match, and the id must be in the restriction list when one is
present. -/
def webhookMatches (q : TriggerWhere) (w : RegisteredWebhook) : Bool :=
  w.resourceType == q.resourceType && w.resourceId == q.resourceId
    && w.enabled
    && (match q.idRestriction with
        | some ids => ids.contains w.id
        | none => true)

/-- Webhook selection of doTriggerWebhooks: all stored webhooks matching
the built `where`. -/
def findWebhooksForTrigger (store : List RegisteredWebhook)
    (q : TriggerWhere) : List RegisteredWebhook :=
  store.filter (webhookMatches q)

/-- Response object of a resolved axios request (status and text body). -/
structure AxiosResponse where
  status : Nat
  body : Option String
deriving DecidableEq, Repr

/-- Error object of a rejected axios request: code (for example
ECONNABORTED), message, and the upstream response when one was received. -/
structure AxiosFailure where
  code : Option String
  message : String
  response : Option AxiosResponse
deriving DecidableEq, Repr

/-- Outcome of one HTTP delivery attempt as seen by the catch block. -/
inductive TransportResult
  | resolved (resp : AxiosResponse)
  | rejected (e : AxiosFailure)
deriving DecidableEq, Repr

/-- Timeout detection in the catch block (webhooks.ts line 327):
`err.code === ECONNABORTED || err.message?.includes(timeout)`. -/
def isTimeoutFailure (e : AxiosFailure) : Bool :=
  e.code == some "ECONNABORTED"
    || decide (List.IsInfix "timeout".toList e.message.toList)

/-- WebhookExecution entity fields written per delivery. -/
structure WebhookExecution where
  webhookRunId : String
  webhookId : String
  ownerType : String
  ownerId : String
  webhookType : String
  webhookUrl : String
  result : String
  statusCode : Option Nat
  response : Option String
deriving DecidableEq, Repr

/-- Per-delivery execution record built inside doTriggerWebhooks (webhooks.ts
lines 312-348), with the transport outcome supplied as a value.  The catch
branch mirrors `statusCode = 408` on timeout, otherwise
`err.response?.status || null` (a 0 status is falsy and becomes null), and
`err.response?.data ? String(err.response.data) : null` (an empty body is
falsy and becomes null).  The resolved branch mirrors
`String(axiosResp.data || '')`. -/
def recordExecution (runId : String) (webhook : RegisteredWebhook)
    (transport : TransportResult) : WebhookExecution :=
  let outcome : String × Option Nat × Option String :=
    match transport with
    | .resolved resp =>
      ("success", some resp.status, some ((resp.body.getD "")))
    | .rejected e =>
      let statusCode : Option Nat :=
        if isTimeoutFailure e then some 408
        else
          match e.response with
          | some r => if r.status == 0 then none else some r.status
          | none => none
      let responseText : Option String :=
        match e.response with
        | some r =>
          match r.body with
          | some d => if d.length == 0 then none else some d
          | none => none
        | none => none
      ("failure", statusCode, responseText)
  { webhookRunId := runId
    webhookId := webhook.id
    ownerType := webhook.ownerType
    ownerId := webhook.ownerId
    webhookType := webhook.webhookType
    webhookUrl := webhook.webhookUrl
    result := outcome.1
    statusCode := outcome.2.1
    response := outcome.2.2 }

/-- Schedule entity, with instants as milliseconds since the epoch. -/
structure Schedule where
  id : String
  webhookId : String
  frequency : String
  enabled : Bool
  endAt : Option Nat
  triggeredBy : Option String
  nextRunAt : Nat
  lastRunAt : Option Nat
deriving DecidableEq, Repr

/-- Modelled from the spec: the cron-parser library called by
calculateNextRunAt is not part of the repository, so its next-fire
computation is modelled for the every-minute expression covered by the
spec: for frequency star-star-star-star-star the first fire time is the
first minute boundary strictly after the reference instant; other
expressions are left unmodelled (none). -/
def cronNextAfter (frequency : String) (fromMs : Nat) : Option Nat :=
  if frequency == "* * * * *" then some ((fromMs / 60000 + 1) * 60000)
  else none

/-- Outcome of the per-schedule body of the 60-second scan. -/
inductive ScanOutcome
  | notDue
  | webhookUnavailable
  | cronUnmodelled
  | fired (updated : Schedule)
deriving DecidableEq, Repr

/-- Per-schedule body of the scan in startScheduleTimer (webhooks.ts lines
476-502): skip when not due or ended, skip when the target webhook is
missing or disabled, otherwise trigger that one webhook and update
lastRunAt to the scan instant and nextRunAt from the cron expression at the
same instant. -/
def scanSchedule (now : Nat) (webhookLookup : Option RegisteredWebhook)
    (sched : Schedule) : ScanOutcome :=
  if now < sched.nextRunAt
      || (match sched.endAt with
          | some e => e ≤ now
          | none => false) then
    .notDue
  else
    match webhookLookup with
    | none => .webhookUnavailable
    | some webhook =>
      if !webhook.enabled then .webhookUnavailable
      else
        match cronNextAfter sched.frequency now with
        | none => .cronUnmodelled
        | some next =>
          .fired { sched with lastRunAt := some now, nextRunAt := next }

/-- One scan of the timer: only schedules with enabled=true are loaded
(the find({ where: { enabled: true } }) call), then each is processed. -/
def scanFires (now : Nat) (lookup : String → Option RegisteredWebhook)
    (schedules : List Schedule) : List (Schedule × ScanOutcome) :=
  (schedules.filter Schedule.enabled).map fun s =>
    (s, scanSchedule now (lookup s.webhookId) s)

/-- Terminal statuses: the states in which nextReviewLevel is forced null. -/
def ApprovalStatus.isTerminal : ApprovalStatus → Bool
  | .Completed => true
  | .Rejected => true
  | .Discarded => true
  | _ => false

/-- The data-model invariant of claim C4: nextReviewLevel is null exactly
when the status is terminal. -/
def taskInvariant (t : ApprovalTask) : Bool :=
  t.nextReviewLevel.isNone == t.status.isTerminal

/-! Helper lemmas shared by the claim theorems. -/

theorem foldl_max_init_le (l : List Nat) : ∀ init : Nat, init ≤ l.foldl Nat.max init := by
  induction l with
  | nil => intro init; simp
  | cons a rest ih =>
    intro init
    calc init ≤ Nat.max init a := Nat.le_max_left _ _
    _ ≤ rest.foldl Nat.max (Nat.max init a) := ih _

theorem mem_le_foldl_max (l : List Nat) (k : Nat) (hk : k ∈ l) :
    ∀ init : Nat, k ≤ l.foldl Nat.max init := by
  induction l with
  | nil => cases hk
  | cons a rest ih =>
    intro init
    rcases List.mem_cons.mp hk with h | h
    · subst h
      calc k ≤ Nat.max init k := Nat.le_max_right _ _
      _ ≤ rest.foldl Nat.max (Nat.max init k) := foldl_max_init_le _ _
    · exact ih h _

theorem level_le_workflowMaxLevel (w : Workflow) (a : WorkflowApprovals)
    (ha : a ∈ w.approvals) : a.level ≤ workflowMaxLevel w :=
  mem_le_foldl_max _ _ (List.mem_map_of_mem _ ha) 0

/-- What a successful approve implies: every guard passed and the result is
exactly the approveSuccess update. -/
theorem approveTask_ok_elim (c : Client) (task : ApprovalTask) (rid : String)
    (roles : List String) (co : Option String) (ts : String)
    (t' : ApprovalTask)
    (h : approveTask c (some task) rid roles co ts = Except.ok t') :
    ownershipOk c task.workflow.ownerType task.workflow.ownerId = true ∧
    (task.status == ApprovalStatus.Completed
      || task.status == ApprovalStatus.Rejected) = false ∧
    optNatFalsy task.nextReviewLevel = false ∧
    ∃ ca, task.workflow.approvals.find?
        (fun a => a.level == task.nextReviewLevel.getD 0) = some ca
      ∧ (roles.any fun role => ca.allowedRoles.contains role) = true
      ∧ t' = approveSuccess task rid roles co ts := by
  simp only [approveTask] at h
  split at h
  · exact Except.noConfusion h
  next hOwn =>
    split at h
    · exact Except.noConfusion h
    next hSt =>
      split at h
      · exact Except.noConfusion h
      next hLvl =>
        split at h
        · exact Except.noConfusion h
        next ca hFind =>
          split at h
          · exact Except.noConfusion h
          next hRole =>
            refine ⟨by simpa using hOwn, by simpa using hSt,
              by simpa using hLvl, ca, hFind, by simpa using hRole, ?_⟩
            injection h with h2
            exact h2.symm

/-- What a successful reject implies: every guard passed and the result is
exactly the rejectSuccess update. -/
theorem rejectTask_ok_elim (c : Client) (task : ApprovalTask) (rid : String)
    (roles : List String) (co : String) (ts : String)
    (t' : ApprovalTask)
    (h : rejectTask c (some task) rid roles co ts = Except.ok t') :
    ownershipOk c task.workflow.ownerType task.workflow.ownerId = true ∧
    (task.status == ApprovalStatus.Completed
      || task.status == ApprovalStatus.Rejected) = false ∧
    optNatFalsy task.nextReviewLevel = false ∧
    ∃ ca, task.workflow.approvals.find?
        (fun a => a.level == task.nextReviewLevel.getD 0) = some ca
      ∧ (roles.any fun role => ca.allowedRoles.contains role) = true
      ∧ t' = rejectSuccess task rid roles co ts := by
  simp only [rejectTask] at h
  split at h
  · exact Except.noConfusion h
  next hOwn =>
    split at h
    · exact Except.noConfusion h
    next hSt =>
      split at h
      · exact Except.noConfusion h
      next hLvl =>
        split at h
        · exact Except.noConfusion h
        next ca hFind =>
          split at h
          · exact Except.noConfusion h
          next hRole =>
            refine ⟨by simpa using hOwn, by simpa using hSt,
              by simpa using hLvl, ca, hFind, by simpa using hRole, ?_⟩
            injection h with h2
            exact h2.symm

/-- What a successful discard of one task implies: the result is exactly the
discardSuccess update. -/
theorem discardOne_ok_elim (c : Client) (task : ApprovalTask) (rid : String)
    (roles : List String) (co : Option String) (ts : String)
    (t' : ApprovalTask)
    (h : discardOne c (some task) rid roles co ts = Except.ok t') :
    t' = discardSuccess task rid roles co ts := by
  simp only [discardOne] at h
  split at h
  · exact Except.noConfusion h
  split at h
  · exact Except.noConfusion h
  split at h
  · exact Except.noConfusion h
  injection h with h2
  exact h2.symm

theorem everyConsecutiveFrom_iff (l : List Nat) :
    ∀ i, everyConsecutiveFrom i l = true ↔ l = List.range' (i + 1) l.length := by
  induction l with
  | nil => intro i; simp [everyConsecutiveFrom]
  | cons a rest ih =>
    intro i
    simp only [everyConsecutiveFrom, Bool.and_eq_true, beq_iff_eq,
      List.length_cons, List.range'_succ, List.cons.injEq]
    rw [ih (i + 1)]

theorem levelsRefine_iff (approvals : List ApprovalInput) :
    levelsRefine approvals = true ↔
      List.insertionSort (· ≤ ·) (approvals.map ApprovalInput.level)
        = List.range' 1 approvals.length := by
  unfold levelsRefine
  have hlen : (List.insertionSort (· ≤ ·)
      (approvals.map ApprovalInput.level)).length = approvals.length := by
    rw [(List.perm_insertionSort _ _).length_eq, List.length_map]
  constructor
  · intro h
    rw [Bool.and_eq_true] at h
    have h2 := (everyConsecutiveFrom_iff _ 0).mp h.2
    rw [h2, hlen]
  · intro h
    rw [Bool.and_eq_true]
    constructor
    · have hnd : (List.insertionSort (· ≤ ·)
          (approvals.map ApprovalInput.level)).Nodup := by
        rw [h]; exact List.nodup_range' _ _ 1 (by norm_num)
      unfold noDuplicateLevels
      rw [List.dedup_eq_self.mpr hnd]
      exact beq_self_eq_true _
    · rw [everyConsecutiveFrom_iff _ 0, hlen]
      exact h

theorem minuteBoundary_least (now : Nat) :
    now < (now / 60000 + 1) * 60000 ∧
    60000 ∣ (now / 60000 + 1) * 60000 ∧
    ∀ m, 60000 ∣ m → now < m → (now / 60000 + 1) * 60000 ≤ m := by
  refine ⟨?_, ⟨now / 60000 + 1, Nat.mul_comm _ _⟩, ?_⟩
  · omega
  · intro m hdvd hlt
    obtain ⟨q, rfl⟩ := hdvd
    omega

/-! Concrete fixtures used by the witness theorems: a two-level workflow
(level 1 for admin, level 2 for finance) owned by one client, with tasks at
both levels, mirroring the scenario of the spec's testable properties. -/

def exClient : Client := ⟨"service", "acct-1"⟩

def exIntruder : Client := ⟨"service", "acct-2"⟩

def exLevel1 : WorkflowApprovals := ⟨"L1", 1, ["admin"], 1⟩

def exLevel2 : WorkflowApprovals := ⟨"L2", 2, ["finance"], 1⟩

def exWorkflow : Workflow :=
  ⟨"w1", "wf", "document", "service", "acct-1", true, [exLevel1, exLevel2]⟩

def exTaskL1 : ApprovalTask :=
  ⟨"t1", "w1", "r1", ApprovalStatus.Pending, some 1, [], exWorkflow⟩

def exTaskL2 : ApprovalTask :=
  ⟨"t2", "w1", "r2", ApprovalStatus.InProgress, some 2, [], exWorkflow⟩

def exDiscardedTask : ApprovalTask :=
  ⟨"t3", "w1", "r3", ApprovalStatus.Discarded, none, [], exWorkflow⟩

/-! Claim theorems. -/

/-- C1: for every approve call that passes the ownership, state,
level-resolution and role checks, approving at the workflow's maximum level
number sets status Completed and nextReviewLevel null, and approving at any
other (necessarily lower) level sets status InProgress and nextReviewLevel
to the current level plus exactly 1. -/
theorem c1_approve_transition (c : Client) (task : ApprovalTask)
    (rid : String) (roles : List String) (co : Option String) (ts : String)
    (t' : ApprovalTask) (k : Nat)
    (h : approveTask c (some task) rid roles co ts = Except.ok t')
    (hk : task.nextReviewLevel = some k) :
    (k = workflowMaxLevel task.workflow →
      t'.status = ApprovalStatus.Completed ∧ t'.nextReviewLevel = none) ∧
    (k ≠ workflowMaxLevel task.workflow →
      t'.status = ApprovalStatus.InProgress
        ∧ t'.nextReviewLevel = some (k + 1)) := by
  obtain ⟨hOwn, hSt, hLvl, ca, hFind, hRole, ht⟩ :=
    approveTask_ok_elim c task rid roles co ts t' h
  subst ht
  have hca : ca.level = k := by
    have hp := List.find?_some hFind
    simpa [hk] using hp
  have hk_le : k ≤ workflowMaxLevel task.workflow := by
    rw [← hca]
    exact level_le_workflowMaxLevel _ _ (List.mem_of_find?_eq_some hFind)
  constructor
  · intro hkmax
    have hcond : workflowMaxLevel task.workflow ≤ task.nextReviewLevel.getD 0 := by
      simp [hk, ← hkmax]
    simp [approveSuccess, hcond]
  · intro hkne
    have hlt : k < workflowMaxLevel task.workflow :=
      Nat.lt_of_le_of_ne hk_le hkne
    have hcond : ¬ workflowMaxLevel task.workflow ≤ k := Nat.not_le.mpr hlt
    simp [approveSuccess, hk, hcond]

/-- C1 witness: approving the example level-2 task (its final level) with a
finance reviewer succeeds and the theorem yields Completed with a null next
level. -/
theorem c1_approve_transition_witness :
    approveTask exClient (some exTaskL2) "rev" ["finance"] none "ts"
      = Except.ok (approveSuccess exTaskL2 "rev" ["finance"] none "ts") ∧
    exTaskL2.nextReviewLevel = some 2 ∧
    (2 = workflowMaxLevel exTaskL2.workflow →
      (approveSuccess exTaskL2 "rev" ["finance"] none "ts").status
          = ApprovalStatus.Completed
        ∧ (approveSuccess exTaskL2 "rev" ["finance"] none "ts").nextReviewLevel
          = none) ∧
    (2 ≠ workflowMaxLevel exTaskL2.workflow →
      (approveSuccess exTaskL2 "rev" ["finance"] none "ts").status
          = ApprovalStatus.InProgress
        ∧ (approveSuccess exTaskL2 "rev" ["finance"] none "ts").nextReviewLevel
          = some 3) :=
  ⟨by rfl, by rfl,
    (c1_approve_transition exClient exTaskL2 "rev" ["finance"] none "ts"
      (approveSuccess exTaskL2 "rev" ["finance"] none "ts") 2
      (by rfl) (by rfl)).1,
    (c1_approve_transition exClient exTaskL2 "rev" ["finance"] none "ts"
      (approveSuccess exTaskL2 "rev" ["finance"] none "ts") 2
      (by rfl) (by rfl)).2⟩

/-- C2: for every reject call that passes the ownership, state,
level-resolution and role checks, rejecting at level 1 sets status Rejected
and nextReviewLevel null, and rejecting at level k greater than 1 sets
status InProgress and nextReviewLevel k minus 1. -/
theorem c2_reject_transition (c : Client) (task : ApprovalTask)
    (rid : String) (roles : List String) (co : String) (ts : String)
    (t' : ApprovalTask) (k : Nat)
    (h : rejectTask c (some task) rid roles co ts = Except.ok t')
    (hk : task.nextReviewLevel = some k) :
    (k = 1 →
      t'.status = ApprovalStatus.Rejected ∧ t'.nextReviewLevel = none) ∧
    (1 < k →
      t'.status = ApprovalStatus.InProgress
        ∧ t'.nextReviewLevel = some (k - 1)) := by
  obtain ⟨hOwn, hSt, hLvl, ca, hFind, hRole, ht⟩ :=
    rejectTask_ok_elim c task rid roles co ts t' h
  subst ht
  constructor
  · intro hk1
    subst hk1
    simp [rejectSuccess, hk]
  · intro hk1
    have : (k == 1) = false := by
      simp
      omega
    simp [rejectSuccess, hk, this]

/-- C2 witness: rejecting the example level-2 task with a finance reviewer
succeeds and the theorem yields InProgress with nextReviewLevel 1. -/
theorem c2_reject_transition_witness :
    rejectTask exClient (some exTaskL2) "rev" ["finance"] "bad" "ts"
      = Except.ok (rejectSuccess exTaskL2 "rev" ["finance"] "bad" "ts") ∧
    exTaskL2.nextReviewLevel = some 2 ∧
    (2 = 1 →
      (rejectSuccess exTaskL2 "rev" ["finance"] "bad" "ts").status
          = ApprovalStatus.Rejected
        ∧ (rejectSuccess exTaskL2 "rev" ["finance"] "bad" "ts").nextReviewLevel
          = none) ∧
    (1 < 2 →
      (rejectSuccess exTaskL2 "rev" ["finance"] "bad" "ts").status
          = ApprovalStatus.InProgress
        ∧ (rejectSuccess exTaskL2 "rev" ["finance"] "bad" "ts").nextReviewLevel
          = some 1) :=
  ⟨by rfl, by rfl,
    (c2_reject_transition exClient exTaskL2 "rev" ["finance"] "bad" "ts"
      (rejectSuccess exTaskL2 "rev" ["finance"] "bad" "ts") 2
      (by rfl) (by rfl)).1,
    (c2_reject_transition exClient exTaskL2 "rev" ["finance"] "bad" "ts"
      (rejectSuccess exTaskL2 "rev" ["finance"] "bad" "ts") 2
      (by rfl) (by rfl)).2⟩

/-- C3: for a proposed workflow whose scalar fields and individual approval
items are well-formed, creation succeeds exactly when the level numbers,
sorted ascending, are the sequence 1, 2, ..., N for N at least 1; any other
level configuration yields the 400 validation error, and an error result
means nothing is persisted. -/
theorem c3_level_consecutiveness (c : Client) (wid : String)
    (input : CreateWorkflowInput)
    (hn : 1 ≤ input.name.length) (hr : 1 ≤ input.resourceType.length)
    (hitems : input.approvals.all approvalItemValid = true) :
    ((∃ w, createWorkflow c wid input = Except.ok w) ↔
      (1 ≤ input.approvals.length ∧
        List.insertionSort (· ≤ ·) (input.approvals.map ApprovalInput.level)
          = List.range' 1 input.approvals.length)) ∧
    (¬ (1 ≤ input.approvals.length ∧
        List.insertionSort (· ≤ ·) (input.approvals.map ApprovalInput.level)
          = List.range' 1 input.approvals.length) →
      createWorkflow c wid input = Except.error ApiError.validationFailed) := by
  have hvalid : createWorkflowValid input = true ↔
      (1 ≤ input.approvals.length ∧
        List.insertionSort (· ≤ ·) (input.approvals.map ApprovalInput.level)
          = List.range' 1 input.approvals.length) := by
    unfold createWorkflowValid approvalsValid
    simp [hn, hr, hitems, levelsRefine_iff]
  constructor
  · constructor
    · intro ⟨w, hw⟩
      rw [← hvalid]
      by_contra hfalse
      have hf : createWorkflowValid input = false :=
        Bool.eq_false_iff.mpr hfalse
      simp [createWorkflow, hf] at hw
    · intro hcons
      have ht := hvalid.mpr hcons
      unfold createWorkflow
      rw [ht]
      exact ⟨_, rfl⟩
  · intro hcons
    have hf : createWorkflowValid input = false := by
      rw [← hvalid] at hcons
      exact Bool.eq_false_iff.mpr hcons
    simp [createWorkflow, hf]

/-- C3 witness: a two-item approvals list with levels given out of order as
[2, 1] sorts to [1, 2] and is accepted. -/
theorem c3_level_consecutiveness_witness :
    1 ≤ ("wf".length) ∧
    (({ name := "wf", resourceType := "doc", enabled := true,
        approvals := [⟨"L2", 2, ["finance"], 1⟩, ⟨"L1", 1, ["admin"], 1⟩] }
          : CreateWorkflowInput).approvals.all approvalItemValid = true) ∧
    ((∃ w, createWorkflow exClient "w9"
        { name := "wf", resourceType := "doc", enabled := true,
          approvals := [⟨"L2", 2, ["finance"], 1⟩, ⟨"L1", 1, ["admin"], 1⟩] }
        = Except.ok w) ↔
      (1 ≤ ([⟨"L2", 2, ["finance"], 1⟩,
          (⟨"L1", 1, ["admin"], 1⟩ : ApprovalInput)].length) ∧
        List.insertionSort (· ≤ ·)
            ([⟨"L2", 2, ["finance"], 1⟩,
              (⟨"L1", 1, ["admin"], 1⟩ : ApprovalInput)].map ApprovalInput.level)
          = List.range' 1 2)) :=
  ⟨by decide, by decide,
    (c3_level_consecutiveness exClient "w9"
      { name := "wf", resourceType := "doc", enabled := true,
        approvals := [⟨"L2", 2, ["finance"], 1⟩, ⟨"L1", 1, ["admin"], 1⟩] }
      (by decide) (by decide) (by decide)).1⟩

/-- C4: the fresh task produced by creation has status Pending and
nextReviewLevel 1 and satisfies the null-iff-terminal invariant, and every
successful approve, reject or single-task discard yields a task satisfying
the invariant (an error outcome saves nothing, so the stored task is
unchanged by construction of the model). -/
theorem c4_null_iff_terminal (c : Client) (workflowStore : List Workflow)
    (tid wid res rid : String) (taskLookup : Option ApprovalTask)
    (roles : List String) (co : Option String) (com ts : String)
    (t1 t2 t3 t4 : ApprovalTask) :
    (createApprovalTask workflowStore c tid wid res = Except.ok t1 →
      t1.status = ApprovalStatus.Pending ∧ t1.nextReviewLevel = some 1
        ∧ taskInvariant t1 = true) ∧
    (approveTask c taskLookup rid roles co ts = Except.ok t2 →
      taskInvariant t2 = true) ∧
    (rejectTask c taskLookup rid roles com ts = Except.ok t3 →
      taskInvariant t3 = true) ∧
    (discardOne c taskLookup rid roles co ts = Except.ok t4 →
      taskInvariant t4 = true) := by
  refine ⟨?_, ?_, ?_, ?_⟩
  · intro h
    simp only [createApprovalTask] at h
    split at h
    · exact Except.noConfusion h
    · injection h with h2
      subst h2
      exact ⟨rfl, rfl, rfl⟩
  · intro h
    match taskLookup with
    | none => exact Except.noConfusion h
    | some task =>
      obtain ⟨_, _, _, ca, hFind, _, ht⟩ :=
        approveTask_ok_elim c task rid roles co ts t2 h
      subst ht
      simp only [taskInvariant, approveSuccess]
      split <;> simp [ApprovalStatus.isTerminal]
  · intro h
    match taskLookup with
    | none => exact Except.noConfusion h
    | some task =>
      obtain ⟨_, _, _, ca, hFind, _, ht⟩ :=
        rejectTask_ok_elim c task rid roles com ts t3 h
      subst ht
      simp only [taskInvariant, rejectSuccess]
      split <;> simp [ApprovalStatus.isTerminal]
  · intro h
    match taskLookup with
    | none => exact Except.noConfusion h
    | some task =>
      have ht := discardOne_ok_elim c task rid roles co ts t4 h
      subst ht
      simp [taskInvariant, discardSuccess, ApprovalStatus.isTerminal]

/-- C4 witness: the fresh task created against the example workflow, and the
results of a successful approve, reject and discard of the example level-1
task, all satisfy the invariant. -/
theorem c4_null_iff_terminal_witness :
    createApprovalTask [exWorkflow] exClient "tF" "w1" "rF" = Except.ok
      (⟨"tF", "w1", "rF", ApprovalStatus.Pending, some 1, [], exWorkflow⟩
        : ApprovalTask) ∧
    ((⟨"tF", "w1", "rF", ApprovalStatus.Pending, some 1, [], exWorkflow⟩
        : ApprovalTask).status = ApprovalStatus.Pending ∧
      (⟨"tF", "w1", "rF", ApprovalStatus.Pending, some 1, [], exWorkflow⟩
        : ApprovalTask).nextReviewLevel = some 1 ∧
      taskInvariant
        (⟨"tF", "w1", "rF", ApprovalStatus.Pending, some 1, [], exWorkflow⟩
          : ApprovalTask) = true) ∧
    taskInvariant (approveSuccess exTaskL1 "rev" ["admin"] none "ts") = true ∧
    taskInvariant (rejectSuccess exTaskL1 "rev" ["admin"] "bad" "ts") = true ∧
    taskInvariant (discardSuccess exTaskL1 "rev" ["admin"] none "ts") = true :=
  ⟨by rfl,
    (c4_null_iff_terminal exClient [exWorkflow] "tF" "w1" "rF" "rev"
      (some exTaskL1) ["admin"] none "bad" "ts"
      ⟨"tF", "w1", "rF", ApprovalStatus.Pending, some 1, [], exWorkflow⟩
      (approveSuccess exTaskL1 "rev" ["admin"] none "ts")
      (rejectSuccess exTaskL1 "rev" ["admin"] "bad" "ts")
      (discardSuccess exTaskL1 "rev" ["admin"] none "ts")).1 (by rfl),
    (c4_null_iff_terminal exClient [exWorkflow] "tF" "w1" "rF" "rev"
      (some exTaskL1) ["admin"] none "bad" "ts"
      ⟨"tF", "w1", "rF", ApprovalStatus.Pending, some 1, [], exWorkflow⟩
      (approveSuccess exTaskL1 "rev" ["admin"] none "ts")
      (rejectSuccess exTaskL1 "rev" ["admin"] "bad" "ts")
      (discardSuccess exTaskL1 "rev" ["admin"] none "ts")).2.1 (by rfl),
    (c4_null_iff_terminal exClient [exWorkflow] "tF" "w1" "rF" "rev"
      (some exTaskL1) ["admin"] none "bad" "ts"
      ⟨"tF", "w1", "rF", ApprovalStatus.Pending, some 1, [], exWorkflow⟩
      (approveSuccess exTaskL1 "rev" ["admin"] none "ts")
      (rejectSuccess exTaskL1 "rev" ["admin"] "bad" "ts")
      (discardSuccess exTaskL1 "rev" ["admin"] none "ts")).2.2.1 (by rfl),
    (c4_null_iff_terminal exClient [exWorkflow] "tF" "w1" "rF" "rev"
      (some exTaskL1) ["admin"] none "bad" "ts"
      ⟨"tF", "w1", "rF", ApprovalStatus.Pending, some 1, [], exWorkflow⟩
      (approveSuccess exTaskL1 "rev" ["admin"] none "ts")
      (rejectSuccess exTaskL1 "rev" ["admin"] "bad" "ts")
      (discardSuccess exTaskL1 "rev" ["admin"] none "ts")).2.2.2 (by rfl)⟩

/-- C5: on an existing owned task that passes the state and level-resolution
checks, approve and reject fail with the role-mismatch permission error
(naming the current level and its allowed roles) exactly when no supplied
reviewer role is in the level's allowedRoles, and both transitions proceed
to their success result when at least one role matches. -/
theorem c5_role_mismatch_iff (c : Client) (task : ApprovalTask)
    (rid : String) (roles : List String) (co : Option String)
    (com ts : String) (k : Nat) (ca : WorkflowApprovals)
    (hOwn : ownershipOk c task.workflow.ownerType task.workflow.ownerId = true)
    (hSt : (task.status == ApprovalStatus.Completed
      || task.status == ApprovalStatus.Rejected) = false)
    (hk : task.nextReviewLevel = some k) (hk0 : k ≠ 0)
    (hFind : task.workflow.approvals.find? (fun a => a.level == k) = some ca) :
    ((approveTask c (some task) rid roles co ts
        = Except.error (ApiError.roleMismatch k ca.allowedRoles)) ↔
      (roles.any fun role => ca.allowedRoles.contains role) = false) ∧
    ((roles.any fun role => ca.allowedRoles.contains role) = true →
      approveTask c (some task) rid roles co ts
        = Except.ok (approveSuccess task rid roles co ts)) ∧
    ((rejectTask c (some task) rid roles com ts
        = Except.error (ApiError.roleMismatch k ca.allowedRoles)) ↔
      (roles.any fun role => ca.allowedRoles.contains role) = false) ∧
    ((roles.any fun role => ca.allowedRoles.contains role) = true →
      rejectTask c (some task) rid roles com ts
        = Except.ok (rejectSuccess task rid roles com ts)) := by
  have hfalsy : optNatFalsy (some k) = false := by
    simp [optNatFalsy, hk0]
  cases hAny : (roles.any fun role => ca.allowedRoles.contains role) with
  | false =>
    have hAnyP : ∀ x ∈ roles, x ∉ ca.allowedRoles := by simpa using hAny
    have happ : approveTask c (some task) rid roles co ts
        = Except.error (ApiError.roleMismatch k ca.allowedRoles) := by
      simp [approveTask, hOwn, hSt, hfalsy, hk, hFind]
      exact hAnyP
    have hrej : rejectTask c (some task) rid roles com ts
        = Except.error (ApiError.roleMismatch k ca.allowedRoles) := by
      simp [rejectTask, hOwn, hSt, hfalsy, hk, hFind]
      exact hAnyP
    refine ⟨⟨fun _ => rfl, fun _ => happ⟩, ?_, ⟨fun _ => rfl, fun _ => hrej⟩, ?_⟩
    · intro hcontra
      exact absurd hcontra (by simp [hAny])
    · intro hcontra
      exact absurd hcontra (by simp [hAny])
  | true =>
    have hAnyP : ∃ x ∈ roles, x ∈ ca.allowedRoles := by simpa using hAny
    have hnot : ¬ ∀ x ∈ roles, x ∉ ca.allowedRoles := by
      push_neg
      exact hAnyP
    have happ : approveTask c (some task) rid roles co ts
        = Except.ok (approveSuccess task rid roles co ts) := by
      simp [approveTask, hOwn, hSt, hfalsy, hk, hFind]
      exact hAnyP
    have hrej : rejectTask c (some task) rid roles com ts
        = Except.ok (rejectSuccess task rid roles com ts) := by
      simp [rejectTask, hOwn, hSt, hfalsy, hk, hFind]
      exact hAnyP
    refine ⟨⟨fun he => ?_, fun hf => ?_⟩, fun _ => happ,
      ⟨fun he => ?_, fun hf => ?_⟩, fun _ => hrej⟩
    · rw [happ] at he
      exact Except.noConfusion he
    · exact absurd hf (by simp)
    · rw [hrej] at he
      exact Except.noConfusion he
    · exact absurd hf (by simp)

/-- C5 witness: the example level-1 task requires the admin role; a caller
presenting only the finance role is refused with the role-mismatch error,
and a caller presenting admin proceeds. -/
theorem c5_role_mismatch_iff_witness :
    ownershipOk exClient exTaskL1.workflow.ownerType
      exTaskL1.workflow.ownerId = true ∧
    exTaskL1.nextReviewLevel = some 1 ∧
    exTaskL1.workflow.approvals.find? (fun a => a.level == 1)
      = some exLevel1 ∧
    ((approveTask exClient (some exTaskL1) "rev" ["finance"] none "ts"
        = Except.error (ApiError.roleMismatch 1 exLevel1.allowedRoles)) ↔
      ((["finance"].any fun role => exLevel1.allowedRoles.contains role)
        = false)) ∧
    ((["finance"].any fun role => exLevel1.allowedRoles.contains role)
        = true →
      approveTask exClient (some exTaskL1) "rev" ["finance"] none "ts"
        = Except.ok (approveSuccess exTaskL1 "rev" ["finance"] none "ts")) :=
  ⟨by decide, by decide, by rfl,
    (c5_role_mismatch_iff exClient exTaskL1 "rev" ["finance"] none "bad" "ts"
      1 exLevel1 (by decide) (by decide) (by decide) (by decide) (by rfl)).1,
    (c5_role_mismatch_iff exClient exTaskL1 "rev" ["finance"] none "bad" "ts"
      1 exLevel1 (by decide) (by decide) (by decide) (by decide)
      (by rfl)).2.1⟩

/-- C10: a task in status Discarded that satisfies the null-iff-terminal
invariant has nextReviewLevel null, so an owned approve or reject call slips
past the terminal-status guard (which only tests Completed and Rejected)
and is rejected by the null-level check with the 400 invalid-state error;
the error outcome saves nothing, so the task is unchanged. -/
theorem c10_discarded_blocked (c : Client) (task : ApprovalTask)
    (rid : String) (roles : List String) (co : Option String) (com ts : String)
    (hOwn : ownershipOk c task.workflow.ownerType task.workflow.ownerId = true)
    (hSt : task.status = ApprovalStatus.Discarded)
    (hInv : taskInvariant task = true) :
    approveTask c (some task) rid roles co ts
      = Except.error ApiError.noPendingLevel ∧
    rejectTask c (some task) rid roles com ts
      = Except.error ApiError.noPendingLevel ∧
    ApiError.noPendingLevel.httpStatus = 400 := by
  have hnone : task.nextReviewLevel = none := by
    rw [taskInvariant, hSt] at hInv
    simp [ApprovalStatus.isTerminal] at hInv
    exact hInv
  refine ⟨?_, ?_, rfl⟩
  · simp [approveTask, hOwn, hSt, hnone, optNatFalsy]
  · simp [rejectTask, hOwn, hSt, hnone, optNatFalsy]

/-- C10 witness: the example discarded task is refused with the
no-pending-level 400 error by both approve and reject. -/
theorem c10_discarded_blocked_witness :
    ownershipOk exClient exDiscardedTask.workflow.ownerType
      exDiscardedTask.workflow.ownerId = true ∧
    exDiscardedTask.status = ApprovalStatus.Discarded ∧
    taskInvariant exDiscardedTask = true ∧
    approveTask exClient (some exDiscardedTask) "rev" ["admin"] none "ts"
      = Except.error ApiError.noPendingLevel ∧
    rejectTask exClient (some exDiscardedTask) "rev" ["admin"] "bad" "ts"
      = Except.error ApiError.noPendingLevel :=
  ⟨by decide, by decide, by decide,
    (c10_discarded_blocked exClient exDiscardedTask "rev" ["admin"] none
      "bad" "ts" (by decide) (by decide) (by decide)).1,
    (c10_discarded_blocked exClient exDiscardedTask "rev" ["admin"] none
      "bad" "ts" (by decide) (by decide) (by decide)).2.1⟩

/-- C6: a delivery attempt whose transport rejected is always recorded with
result failure; when the rejection is a timeout (ECONNABORTED code or a
message containing the word timeout) the recorded statusCode is 408, and
otherwise it is the upstream response status when a response (with a
non-zero status, as every real HTTP status is) is present and null when
none is. -/
theorem c6_timeout_recording (runId : String) (webhook : RegisteredWebhook)
    (e : AxiosFailure)
    (hs : ∀ r, e.response = some r → r.status ≠ 0) :
    (recordExecution runId webhook (TransportResult.rejected e)).result
      = "failure" ∧
    (isTimeoutFailure e = true →
      (recordExecution runId webhook (TransportResult.rejected e)).statusCode
        = some 408) ∧
    (isTimeoutFailure e = false →
      (recordExecution runId webhook (TransportResult.rejected e)).statusCode
        = e.response.map AxiosResponse.status) := by
  refine ⟨rfl, ?_, ?_⟩
  · intro ht
    simp [recordExecution, ht]
  · intro ht
    cases hr : e.response with
    | none => simp [recordExecution, ht, hr]
    | some r =>
      have hs0 : (r.status == 0) = false := by
        simp
        exact hs r hr
      simp [recordExecution, ht, hr, hs0]

/-- C6 witness: an ECONNABORTED rejection with no upstream response is
recorded as a failure with statusCode 408. -/
theorem c6_timeout_recording_witness :
    (∀ r, (⟨some "ECONNABORTED", "timeout of 3000ms exceeded", none⟩
      : AxiosFailure).response = some r → r.status ≠ 0) ∧
    (recordExecution "run1"
      ⟨"wh1", "document", "r1", "service", "acct-1", "http",
        "http://example.com/hook", none, 3, 3, true⟩
      (TransportResult.rejected
        ⟨some "ECONNABORTED", "timeout of 3000ms exceeded", none⟩)).result
      = "failure" ∧
    (isTimeoutFailure
        ⟨some "ECONNABORTED", "timeout of 3000ms exceeded", none⟩ = true →
      (recordExecution "run1"
        ⟨"wh1", "document", "r1", "service", "acct-1", "http",
          "http://example.com/hook", none, 3, 3, true⟩
        (TransportResult.rejected
          ⟨some "ECONNABORTED", "timeout of 3000ms exceeded",
            none⟩)).statusCode = some 408) :=
  ⟨by intro r hr; exact Option.noConfusion hr,
    (c6_timeout_recording "run1"
      ⟨"wh1", "document", "r1", "service", "acct-1", "http",
        "http://example.com/hook", none, 3, 3, true⟩
      ⟨some "ECONNABORTED", "timeout of 3000ms exceeded", none⟩
      (by intro r hr; exact Option.noConfusion hr)).1,
    (c6_timeout_recording "run1"
      ⟨"wh1", "document", "r1", "service", "acct-1", "http",
        "http://example.com/hook", none, 3, 3, true⟩
      ⟨some "ECONNABORTED", "timeout of 3000ms exceeded", none⟩
      (by intro r hr; exact Option.noConfusion hr)).2.1⟩

/-- C7: a schedule with the every-minute cron expression that fires in a
scan ends with lastRunAt equal to the scan instant and nextRunAt equal to
the least minute boundary strictly after that instant, and it can only have
fired if it was enabled, due (nextRunAt not in the future) and not ended
(endAt unset or still in the future).  The cron computation itself is
modelled from the spec (cronNextAfter), the firing conditions from the
scan code. -/
theorem c7_schedule_fire (now : Nat)
    (lookup : String → Option RegisteredWebhook)
    (schedules : List Schedule) (sched s' : Schedule)
    (hmem : (sched, ScanOutcome.fired s')
      ∈ scanFires now lookup schedules)
    (hfreq : sched.frequency = "* * * * *") :
    s'.lastRunAt = some now ∧
    s'.nextRunAt = (now / 60000 + 1) * 60000 ∧
    now < s'.nextRunAt ∧ 60000 ∣ s'.nextRunAt ∧
    (∀ m, 60000 ∣ m → now < m → s'.nextRunAt ≤ m) ∧
    sched.enabled = true ∧
    sched.nextRunAt ≤ now ∧
    (∀ e, sched.endAt = some e → now < e) := by
  obtain ⟨x, hxmem, hxeq⟩ := List.mem_map.mp hmem
  have hx1 : x = sched := congrArg Prod.fst hxeq
  have hx2 : scanSchedule now (lookup x.webhookId) x = ScanOutcome.fired s' :=
    congrArg Prod.snd hxeq
  rw [← hx1] at hfreq ⊢
  have henabled : x.enabled = true := List.of_mem_filter hxmem
  simp only [scanSchedule] at hx2
  split at hx2
  · exact ScanOutcome.noConfusion hx2
  next hdue =>
    split at hx2
    · exact ScanOutcome.noConfusion hx2
    next webhook =>
      split at hx2
      · exact ScanOutcome.noConfusion hx2
      next hwen =>
        split at hx2
        · exact ScanOutcome.noConfusion hx2
        next next hnext =>
          injection hx2 with hs2
          rw [hfreq] at hnext
          simp only [cronNextAfter, if_pos] at hnext
          have hnexteq : next = (now / 60000 + 1) * 60000 := by
            simpa using hnext.symm
          subst hnexteq
          subst hs2
          obtain ⟨hb1, hb2, hb3⟩ := minuteBoundary_least now
          have hdue2 := hdue
          simp only [Bool.or_eq_true, not_or, decide_eq_true_eq] at hdue2
          obtain ⟨hd1, hd2⟩ := hdue2
          refine ⟨rfl, rfl, hb1, hb2, hb3, henabled, ?_, ?_⟩
          · exact Nat.le_of_not_lt hd1
          · intro en hen
            rw [hen] at hd2
            simpa using hd2

/-- C7 witness: at scan instant 90000 ms an enabled every-minute schedule
with nextRunAt 60000 and no endAt fires against an enabled webhook, ending
with lastRunAt 90000 and nextRunAt 120000 (the minute boundary strictly
after 90000). -/
theorem c7_schedule_fire_witness :
    (⟨"s1", "wh1", "* * * * *", true, none, none, 60000, none⟩
      : Schedule).frequency = "* * * * *" ∧
    ((⟨"s1", "wh1", "* * * * *", true, none, none, 60000, none⟩ : Schedule),
      ScanOutcome.fired
        ⟨"s1", "wh1", "* * * * *", true, none, none, 120000, some 90000⟩)
      ∈ scanFires 90000
        (fun _ => some ⟨"wh1", "document", "r1", "service", "acct-1",
          "http", "http://example.com/hook", none, 3, 3, true⟩)
        [⟨"s1", "wh1", "* * * * *", true, none, none, 60000, none⟩] ∧
    (⟨"s1", "wh1", "* * * * *", true, none, none, 120000, some 90000⟩
      : Schedule).lastRunAt = some 90000 ∧
    (⟨"s1", "wh1", "* * * * *", true, none, none, 120000, some 90000⟩
      : Schedule).nextRunAt = (90000 / 60000 + 1) * 60000 :=
  ⟨by rfl, by decide,
    (c7_schedule_fire 90000
      (fun _ => some ⟨"wh1", "document", "r1", "service", "acct-1",
        "http", "http://example.com/hook", none, 3, 3, true⟩)
      [⟨"s1", "wh1", "* * * * *", true, none, none, 60000, none⟩]
      ⟨"s1", "wh1", "* * * * *", true, none, none, 60000, none⟩
      ⟨"s1", "wh1", "* * * * *", true, none, none, 120000, some 90000⟩
      (by decide) (by rfl)).1,
    (c7_schedule_fire 90000
      (fun _ => some ⟨"wh1", "document", "r1", "service", "acct-1",
        "http", "http://example.com/hook", none, 3, 3, true⟩)
      [⟨"s1", "wh1", "* * * * *", true, none, none, 60000, none⟩]
      ⟨"s1", "wh1", "* * * * *", true, none, none, 60000, none⟩
      ⟨"s1", "wh1", "* * * * *", true, none, none, 120000, some 90000⟩
      (by decide) (by rfl)).2.1⟩

def exForeignTask : ApprovalTask :=
  ⟨"t9", "w1", "r9", ApprovalStatus.Pending, some 1, [], exWorkflow⟩

/-- C8 counterexample: against a caller from a different account, the get
and approve handlers answer 403 Forbidden (CustomAuthError thrown by
enforceClientOwnership) for an existing task of another owner, but 404 for
a missing id — the two errors differ, so the claim that they are
indistinguishable 404 responses is false at this input. -/
theorem c8_counterexample :
    getApprovalTask exIntruder (some exForeignTask)
      = Except.error ApiError.ownershipForbidden ∧
    getApprovalTask exIntruder none = Except.error ApiError.taskNotFound ∧
    approveTask exIntruder (some exForeignTask) "rev" ["admin"] none "ts"
      = Except.error ApiError.ownershipForbidden ∧
    approveTask exIntruder none "rev" ["admin"] none "ts"
      = Except.error ApiError.taskNotFound ∧
    ApiError.ownershipForbidden.httpStatus = 403 ∧
    ApiError.taskNotFound.httpStatus = 404 ∧
    ApiError.ownershipForbidden.httpStatus ≠ ApiError.taskNotFound.httpStatus :=
  ⟨by rfl, by rfl, by rfl, by rfl, by rfl, by rfl, by decide⟩

/-- C8 amended: a request for a missing ApprovalTask id yields the 404
not-found error, while a request for an existing task whose workflow owner
differs from the caller yields the 403 Forbidden error; the two responses
carry different statuses, so the cases are distinguishable and a caller can
learn that another tenant's task id exists. -/
theorem c8_ownership_vs_notfound (c : Client) (task : ApprovalTask)
    (rid : String) (roles : List String) (co : Option String)
    (com ts : String)
    (hmismatch : ownershipOk c task.workflow.ownerType
      task.workflow.ownerId = false) :
    getApprovalTask c none = Except.error ApiError.taskNotFound ∧
    getApprovalTask c (some task) = Except.error ApiError.ownershipForbidden ∧
    approveTask c none rid roles co ts = Except.error ApiError.taskNotFound ∧
    approveTask c (some task) rid roles co ts
      = Except.error ApiError.ownershipForbidden ∧
    rejectTask c none rid roles com ts = Except.error ApiError.taskNotFound ∧
    rejectTask c (some task) rid roles com ts
      = Except.error ApiError.ownershipForbidden ∧
    ApiError.taskNotFound.httpStatus = 404 ∧
    ApiError.ownershipForbidden.httpStatus = 403 := by
  refine ⟨rfl, ?_, rfl, ?_, rfl, ?_, rfl, rfl⟩
  · simp [getApprovalTask, hmismatch]
  · simp [approveTask, hmismatch]
  · simp [rejectTask, hmismatch]

/-- C8 amended witness: the intruder account against the example foreign
task. -/
theorem c8_ownership_vs_notfound_witness :
    ownershipOk exIntruder exForeignTask.workflow.ownerType
      exForeignTask.workflow.ownerId = false ∧
    getApprovalTask exIntruder none = Except.error ApiError.taskNotFound ∧
    getApprovalTask exIntruder (some exForeignTask)
      = Except.error ApiError.ownershipForbidden :=
  ⟨by decide,
    (c8_ownership_vs_notfound exIntruder exForeignTask "rev" ["admin"] none
      "bad" "ts" (by decide)).1,
    (c8_ownership_vs_notfound exIntruder exForeignTask "rev" ["admin"] none
      "bad" "ts" (by decide)).2.1⟩

/-- C9: triggering with an explicitly empty targetWebhookIds list builds the
same query as not passing the restriction at all, so the trigger fans out
to every enabled webhook matching the resource rather than to none. -/
theorem c9_empty_target_ids (store : List RegisteredWebhook)
    (rt ri : String) :
    findWebhooksForTrigger store (buildTriggerWhere rt ri (some []))
      = findWebhooksForTrigger store (buildTriggerWhere rt ri none) ∧
    findWebhooksForTrigger store (buildTriggerWhere rt ri (some []))
      = store.filter (fun w =>
          w.resourceType == rt && w.resourceId == ri && w.enabled) := by
  constructor
  · rfl
  · unfold findWebhooksForTrigger buildTriggerWhere webhookMatches
    congr 1
    funext w
    simp

end NodeStarter
